import Mathlib

/-!
# Verification of the BN_Volatility indicator core

A shallow embedding of the indicator engines of the BN_Volatility
repository (`src/stats.rs`, `src/indicators/vol.rs`,
`src/indicators/calculators.rs`, `src/indicators/trend_state.rs`)
together with theorems settling the specification claims about them.

Conventions of the embedding:
* Rust `f64` values are modelled as exact rationals (`ℚ`) where the code
  only uses field operations and comparisons, and as real numbers (`ℝ`)
  where it uses `ln`, `exp`, `sqrt` or `powf`.
* Rust `u64`/`u32`/`usize` values are modelled as `ℕ`; wrapping or
  saturating arithmetic is made explicit where the source relies on it.
* Mutation (`&mut self`) is modelled by explicit state passing: a method
  that mutates and returns `T` becomes a function returning the new state
  paired with `T`.
* Reads of the wall clock (`SystemTime::now()`) become an explicit
  `now_ms : ℕ` parameter.
-/

/- ## `src/stats.rs` : `VolatilityStats` -/

/-- Rust `x as usize` on an `f64` (here a rational): truncation toward zero,
saturating at `0` below and `usize::MAX` above.  `Nat.floor` already sends
negative rationals to `0`. -/
def f64AsUsize (x : ℚ) : ℕ :=
  min (Nat.floor x) (2 ^ 64 - 1)

/-- Histogram of volatility samples (`VolatilityStats` in `src/stats.rs`). -/
structure VolatilityStats where
  buckets : List ℕ
  count : ℕ
  step : ℚ

namespace VolatilityStats

/-- `VolatilityStats::new(step, bucket_count)`. -/
def new (step : ℚ) (bucket_count : ℕ) : VolatilityStats :=
  { buckets := List.replicate bucket_count 0
    count := 0
    step := step }

/-- `VolatilityStats::record(vol)`: bump the `u32` counter (wrapping modelled
explicitly) and increment the bucket `(vol / step) as usize`, clamped to the
last index.  The out-of-bounds write that Rust would panic on (empty bucket
vector) is modelled by `List.set`, which is a no-op out of bounds. -/
def record (s : VolatilityStats) (vol : ℚ) : VolatilityStats :=
  let max_idx := s.buckets.length - 1
  let index0 := f64AsUsize (vol / s.step)
  let index := if max_idx < index0 then max_idx else index0
  { s with
    count := (s.count + 1) % 2 ^ 32
    buckets := s.buckets.set index (s.buckets.getD index 0 + 1) }

end VolatilityStats

/- ## `src/indicators/calculators.rs` : `VwapCalculator` -/

/-- A flushed VWAP sample (`VwapPoint`). -/
structure VwapPoint where
  price : ℚ
  timestamp_ms : ℕ
deriving DecidableEq

/-- Tumbling-window VWAP aggregator (`VwapCalculator`). -/
structure VwapCalculator where
  window_ms : ℕ
  window_start_ms : ℕ
  sum_pq : ℚ
  sum_q : ℚ
  last_ts_ms : ℕ
  vwap_series : List VwapPoint
  max_series_len : ℕ
deriving DecidableEq

/-- Rust `u64` subtraction `a - b` (wrapping in release builds), for
operands below `2 ^ 64`. -/
def u64Sub (a b : ℕ) : ℕ :=
  if b ≤ a then a - b else 2 ^ 64 - (b - a)

namespace VwapCalculator

/-- `VwapCalculator::new(window_ms, max_series_len)`. -/
def new (window_ms : ℕ) (max_series_len : ℕ) : VwapCalculator :=
  { window_ms := window_ms
    window_start_ms := 0
    sum_pq := 0
    sum_q := 0
    last_ts_ms := 0
    vwap_series := []
    max_series_len := max_series_len }

/-- `VwapCalculator::flush`: divide the accumulators and push the point onto
the bounded series, popping the front when the length would exceed
`max_series_len`; skipped entirely when `sum_q ≤ 0`. -/
def flush (c : VwapCalculator) : VwapCalculator × Option VwapPoint :=
  if c.sum_q ≤ 0 then (c, none)
  else
    let point : VwapPoint := { price := c.sum_pq / c.sum_q, timestamp_ms := c.last_ts_ms }
    let series := c.vwap_series ++ [point]
    let series := if c.max_series_len < series.length then series.drop 1 else series
    ({ c with vwap_series := series }, some point)

/-- `VwapCalculator::add_trade(price, qty, timestamp_ms)`. -/
def add_trade (c : VwapCalculator) (price qty : ℚ) (timestamp_ms : ℕ) :
    VwapCalculator × Option VwapPoint :=
  if c.window_start_ms = 0 then
    ({ c with
        window_start_ms := timestamp_ms
        sum_pq := price * qty
        sum_q := qty
        last_ts_ms := timestamp_ms }, none)
  else if u64Sub timestamp_ms c.window_start_ms < c.window_ms then
    ({ c with
        sum_pq := c.sum_pq + price * qty
        sum_q := c.sum_q + qty
        last_ts_ms := timestamp_ms }, none)
  else
    let flushed := c.flush
    ({ flushed.1 with
        window_start_ms := timestamp_ms
        sum_pq := price * qty
        sum_q := qty
        last_ts_ms := timestamp_ms }, flushed.2)

end VwapCalculator

/- ## `src/indicators/calculators.rs` : `PriceFitter` -/

/-- Least-squares fit output (`FitResult`). -/
structure FitResult where
  slope : ℚ
  intercept : ℚ
  r_squared : ℚ
  is_valid : Bool
  current_price : ℚ
deriving DecidableEq

/-- Linear fitter over the VWAP series (`PriceFitter`). -/
structure PriceFitter where
  window_secs : ℚ
  min_points : ℕ
  min_r2 : ℚ

namespace PriceFitter

/-- `PriceFitter::new`. -/
def new (window_secs : ℚ) (min_points : ℕ) (min_r2 : ℚ) : PriceFitter :=
  { window_secs := window_secs, min_points := min_points, min_r2 := min_r2 }

/-- The in-window `(timestamp_sec, price)` points selected by
`PriceFitter::fit`: series entries whose second-valued timestamp is at
least `current_ts - window_secs`. -/
def fitPoints (pf : PriceFitter) (series : List VwapPoint) (current_ts_ms : ℕ) :
    List (ℚ × ℚ) :=
  let current_ts : ℚ := (current_ts_ms : ℚ) / 1000
  let cutoff := current_ts - pf.window_secs
  (series.filter (fun p => cutoff ≤ (p.timestamp_ms : ℚ) / 1000)).map
    (fun p => ((p.timestamp_ms : ℚ) / 1000, p.price))

/-- The zero-normalized times of `PriceFitter::fit` (`t_norm`); Rust reads
`points[0]`, which presupposes a nonempty selection. -/
def tNorm (points : List (ℚ × ℚ)) : List ℚ :=
  points.map (fun p => p.1 - points.headI.1)

/-- The least-squares denominator `n * sum_tt - sum_t * sum_t` of
`PriceFitter::fit`. -/
def fitDenom (points : List (ℚ × ℚ)) : ℚ :=
  let t := tNorm points
  (points.length : ℚ) * (t.map (fun x => x * x)).sum - t.sum * t.sum

/-- `PriceFitter::fit(series, current_ts_ms)`. -/
def fit (pf : PriceFitter) (series : List VwapPoint) (current_ts_ms : ℕ) :
    Option FitResult :=
  let points := pf.fitPoints series current_ts_ms
  if points.length < pf.min_points then none
  else
    let t_norm := tNorm points
    let prices := points.map (·.2)
    let n : ℚ := points.length
    let sum_t := t_norm.sum
    let sum_p := prices.sum
    let sum_tp := ((t_norm.zip prices).map (fun e => e.1 * e.2)).sum
    let denom := fitDenom points
    if |denom| < 1 / 10 ^ 10 then none
    else
      let slope := (n * sum_tp - sum_t * sum_p) / denom
      let intercept := (sum_p - slope * sum_t) / n
      let mean_p := sum_p / n
      let ss_tot : ℚ := (prices.map (fun p => (p - mean_p) ^ 2)).sum
      let ss_res : ℚ := ((t_norm.zip prices).map
        (fun e => (e.2 - (intercept + slope * e.1)) ^ 2)).sum
      let r_squared := if 0 < ss_tot then 1 - ss_res / ss_tot else 0
      some { slope := slope
             intercept := intercept
             r_squared := r_squared
             is_valid := decide (pf.min_r2 ≤ r_squared)
             current_price := intercept + slope * (t_norm.getLast?.getD 0) }

/-- `PriceFitter::predict(fit, horizon_secs)`. -/
def predict (fit : FitResult) (horizon_secs : ℚ) : ℚ :=
  fit.current_price + fit.slope * horizon_secs

end PriceFitter

/- ## `src/indicators/trend_state.rs` : `TrendStateMachine` -/

/-- Trend direction (`TrendDirection`). -/
inductive TrendDirection where
  | Long
  | Short
  | Neutral
deriving DecidableEq

/-- Strategy state (`StrategyState`). -/
inductive StrategyState where
  | Cooldown
  | Scanning
  | Holding
deriving DecidableEq

/-- Rust `f64::clamp(lo, hi)` (the source always calls it with
`min_price_fallback ≤ max_price_fallback`). -/
def qClamp (x lo hi : ℚ) : ℚ :=
  if x < lo then lo else if hi < x then hi else x

/-- Construction parameters (`TrendConfig`). -/
structure TrendConfig where
  slope_threshold : ℚ
  ofi_confirm_threshold : ℚ
  cooldown_secs : ℚ
  slope_threshold_ratio : ℚ
  min_price_fallback : ℚ
  max_price_fallback : ℚ
  entry_protection_secs : ℚ
  slope_weak_threshold : ℚ

/-- The trend entry/exit machine (`TrendStateMachine`). -/
structure TrendStateMachine where
  state : StrategyState
  direction : TrendDirection
  entry_slope : ℚ
  entry_intercept : ℚ
  entry_ts_sec : ℚ
  cooldown_start_ts : ℚ
  cooldown_secs : ℚ
  slope_threshold : ℚ
  ofi_confirm_threshold : ℚ
  slope_threshold_ratio : ℚ
  min_price_fallback : ℚ
  max_price_fallback : ℚ
  entry_protection_secs : ℚ
  slope_history : List ℚ
  slope_weak_threshold : ℚ
deriving DecidableEq

namespace TrendStateMachine

/-- `TrendStateMachine::new(config)`. -/
def new (config : TrendConfig) : TrendStateMachine :=
  { state := StrategyState.Scanning
    direction := TrendDirection.Neutral
    entry_slope := 0
    entry_intercept := 0
    entry_ts_sec := 0
    cooldown_start_ts := 0
    cooldown_secs := config.cooldown_secs
    slope_threshold := config.slope_threshold
    ofi_confirm_threshold := config.ofi_confirm_threshold
    slope_threshold_ratio := config.slope_threshold_ratio
    min_price_fallback := config.min_price_fallback
    max_price_fallback := config.max_price_fallback
    entry_protection_secs := config.entry_protection_secs
    slope_history := []
    slope_weak_threshold := config.slope_weak_threshold }

/-- `TrendStateMachine::enter_position`. -/
def enter_position (m : TrendStateMachine) (direction : TrendDirection)
    (fit : FitResult) (ts_sec : ℚ) : TrendStateMachine :=
  { m with
    state := StrategyState.Holding
    direction := direction
    entry_slope := fit.slope
    entry_intercept := fit.current_price
    entry_ts_sec := ts_sec
    slope_history := [] }

/-- `TrendStateMachine::exit_position`. -/
def exit_position (m : TrendStateMachine) (ts_sec : ℚ) : TrendStateMachine :=
  { m with
    state := StrategyState.Cooldown
    cooldown_start_ts := ts_sec
    direction := TrendDirection.Neutral
    slope_history := [] }

/-- `TrendStateMachine::update(current_ts_sec, fit_5s, cum_ofi, latest_price)`. -/
def update (m : TrendStateMachine) (current_ts_sec : ℚ) (fit_5s : Option FitResult)
    (cum_ofi : ℚ) (latest_price : ℚ) : TrendStateMachine :=
  match m.state with
  | StrategyState.Cooldown =>
      if m.cooldown_secs ≤ current_ts_sec - m.cooldown_start_ts then
        { m with state := StrategyState.Scanning }
      else m
  | StrategyState.Scanning =>
      match fit_5s with
      | none => m
      | some f =>
          if f.is_valid then
            if m.slope_threshold < f.slope ∧ m.ofi_confirm_threshold < cum_ofi then
              m.enter_position TrendDirection.Long f current_ts_sec
            else if f.slope < -m.slope_threshold ∧ cum_ofi < -m.ofi_confirm_threshold then
              m.enter_position TrendDirection.Short f current_ts_sec
            else m
          else m
  | StrategyState.Holding =>
      match fit_5s with
      | none => m
      | some f =>
          let hist0 := m.slope_history ++ [f.slope]
          let hist := if 10 < hist0.length then hist0.drop 1 else hist0
          let m1 := { m with slope_history := hist }
          let time_elapsed := current_ts_sec - m.entry_ts_sec
          let should_exit : Bool :=
            if m.entry_protection_secs ≤ time_elapsed then
              let fitted_price := m.entry_intercept + m.entry_slope * time_elapsed
              let threshold := qClamp ((1 - m.slope_threshold_ratio) * |m.entry_slope| * time_elapsed)
                m.min_price_fallback m.max_price_fallback
              match m.direction with
              | TrendDirection.Long => decide (latest_price < fitted_price - threshold)
              | TrendDirection.Short => decide (fitted_price + threshold < latest_price)
              | TrendDirection.Neutral => false
            else false
          if should_exit then m1.exit_position current_ts_sec
          else if 5 ≤ time_elapsed ∧ 10 ≤ hist.length then
            let weak_count :=
              match m.direction with
              | TrendDirection.Long => (hist.filter (fun s => s < m.slope_weak_threshold)).length
              | TrendDirection.Short => (hist.filter (fun s => -m.slope_weak_threshold < s)).length
              | TrendDirection.Neutral => 0
            if 5 < weak_count then m1.exit_position current_ts_sec else m1
          else m1

/-- `TrendStateMachine::is_holding`. -/
def is_holding (m : TrendStateMachine) : Bool :=
  m.state = StrategyState.Holding

end TrendStateMachine

/- ## `src/indicators/vol.rs` : `InstantVolatilityIndicator` -/

/-- One buffered sample (`PriceData`): the natural log of the trade price and
the trade timestamp. -/
structure PriceData where
  ln_price : ℝ
  timestamp_ms : ℕ

/-- `VolatilityResult`. -/
structure VolatilityResult where
  annualized : ℝ
  raw_vol : ℝ
  dt_secs : ℝ
  duration_ms : ℕ
  is_stale : Bool

/-- Sliding-window realized-volatility indicator
(`InstantVolatilityIndicator`). -/
structure InstantVolatilityIndicator where
  window_size : ℕ
  prices : List PriceData
  seconds_in_year : ℝ
  stale_threshold_ms : ℕ
  fallback_volatility : ℝ
  expire_threshold_ms : ℕ

namespace InstantVolatilityIndicator

/-- `InstantVolatilityIndicator::new`. -/
def new (window_size : ℕ) (stale_threshold_ms : ℕ) (fallback_volatility : ℝ)
    (expire_threshold_ms : ℕ) : InstantVolatilityIndicator :=
  { window_size := window_size
    prices := []
    seconds_in_year := 31536000
    stale_threshold_ms := stale_threshold_ms
    fallback_volatility := fallback_volatility
    expire_threshold_ms := expire_threshold_ms }

/-- `InstantVolatilityIndicator::update(price, trade_time_ms)`; the
`SystemTime::now()` read is the explicit `now_ms` argument, and
`saturating_sub` is `ℕ` subtraction. -/
noncomputable def update (ind : InstantVolatilityIndicator) (now_ms : ℕ) (price : ℝ)
    (trade_time_ms : ℕ) : InstantVolatilityIndicator :=
  let pruned := ind.prices.dropWhile (fun p => ind.expire_threshold_ms < now_ms - p.timestamp_ms)
  let pushed := pruned ++ [{ ln_price := Real.log price, timestamp_ms := trade_time_ms }]
  { ind with prices := if ind.window_size < pushed.length then pushed.drop 1 else pushed }

/-- The defensive result returned on insufficient or stale data
(`stale_result` in `get_volatility`). -/
def stale_result (ind : InstantVolatilityIndicator) : VolatilityResult :=
  { annualized := ind.fallback_volatility
    raw_vol := 0
    dt_secs := 0
    duration_ms := 0
    is_stale := true }

/-- Timestamp of the newest buffered sample (`self.prices.back()`), read only
when the buffer is nonempty. -/
def latestTs (ind : InstantVolatilityIndicator) : ℕ :=
  ((ind.prices.getLast?).map PriceData.timestamp_ms).getD 0

/-- `InstantVolatilityIndicator::get_volatility()`; the `SystemTime::now()`
read is the explicit `now_ms` argument. -/
noncomputable def get_volatility (ind : InstantVolatilityIndicator) (now_ms : ℕ) :
    VolatilityResult :=
  if ind.prices.length < 2 then ind.stale_result
  else
    let latest_ts := ind.latestTs
    if ind.stale_threshold_ms < now_ms - latest_ts then ind.stale_result
    else
      let ln_prices := ind.prices.map PriceData.ln_price
      let count := ln_prices.length - 1
      let diff_sq_sum : ℝ := ((ln_prices.zip ln_prices.tail).map (fun w => (w.2 - w.1) ^ 2)).sum
      let raw_vol := if 0 < count then Real.sqrt (diff_sq_sum / count) else 0
      let first_ts := ((ind.prices.head?).map PriceData.timestamp_ms).getD 0
      let duration_ms := latest_ts - first_ts
      let dt_secs : ℝ := (duration_ms : ℝ) / 1000
      let annualized := raw_vol * Real.sqrt (ind.seconds_in_year / max dt_secs (1 / 100))
      { annualized := annualized
        raw_vol := raw_vol
        dt_secs := dt_secs
        duration_ms := duration_ms
        is_stale := false }

end InstantVolatilityIndicator

/- ## `src/indicators/calculators.rs` : `DepthCalculator` -/

/-- `f64::MAX`, exactly `(2 - 2⁻⁵²) · 2¹⁰²³`. -/
def F64MAX : ℝ := 2 ^ 1024 - 2 ^ 971

/-- Rust `x as u64` on an `f64` (here a real): truncation toward zero,
saturating at `0` below and `u64::MAX` above. -/
noncomputable def f64AsU64 (x : ℝ) : ℕ :=
  min (Nat.floor x) (2 ^ 64 - 1)

/-- The integer price key `(price * 100.0) as u64` used for book maps. -/
noncomputable def priceKey (p : ℝ) : ℕ :=
  f64AsU64 (p * 100)

/-- A `HashMap<u64, f64>` book side, modelled as an association list with
unique keys (insertion replaces). -/
abbrev Book := List (ℕ × ℝ)

/-- `HashMap::get`. -/
def hmGet (m : Book) (k : ℕ) : Option ℝ :=
  (m.find? (fun e => e.1 == k)).map (·.2)

/-- `HashMap::insert` (replacing any previous binding of the key). -/
def hmInsert (m : Book) (k : ℕ) (v : ℝ) : Book :=
  (m.filter (fun e => ¬ e.1 = k)) ++ [(k, v)]

/-- Building a book map from `(price, qty)` levels
(`.iter().map(|(p, q)| ((*p * 100.0) as u64, *q)).collect()`). -/
noncomputable def buildBook (levels : List (ℝ × ℝ)) : Book :=
  levels.foldl (fun m l => hmInsert m (priceKey l.1) l.2) []

/-- `bids.iter().map(|(p, _)| *p).fold(0.0, f64::max)`. -/
def bestBid (bids : List (ℝ × ℝ)) : ℝ :=
  bids.foldl (fun a l => max a l.1) 0

/-- `asks.iter().map(|(p, _)| *p).fold(f64::MAX, f64::min)`. -/
def bestAsk (asks : List (ℝ × ℝ)) : ℝ :=
  asks.foldl (fun a l => min a l.1) F64MAX

/-- `DepthCalculator::calculate_net_limit_flow`: distance-decayed net change
over the union of price levels (the `HashSet` iteration order does not
affect the real-valued sum, so the union is taken as a deduplicated list). -/
noncomputable def netLimitFlow (prev_book curr_book trades : Book) (mid_price : ℝ) : ℝ :=
  let decay : ℝ := 1 / 5
  let all_prices := (prev_book.map (·.1) ++ curr_book.map (·.1) ++ trades.map (·.1)).dedup
  all_prices.foldl (fun (flow : ℝ) (price_key : ℕ) =>
    let p := (price_key : ℝ) / 100
    let v_old := (hmGet prev_book price_key).getD 0
    let v_new := (hmGet curr_book price_key).getD 0
    let v_trade := (hmGet trades price_key).getD 0
    let net_change := (v_new - v_old) + v_trade
    if 1 / 1000000 < |net_change| then
      flow + net_change * Real.exp (-decay * |p - mid_price|)
    else flow) 0

/-- The order-flow calculator (`DepthCalculator`).  A trade-buffer entry is
`(timestamp_ms, price, qty, is_buyer_maker)`. -/
structure DepthCalculator where
  prev_bids : Book
  prev_asks : Book
  last_update_id : ℕ
  ofi_buffer : List (ℝ × ℝ)
  cum_window_secs : ℝ
  decay : ℝ
  trade_buffer : List (ℕ × ℝ × ℝ × Bool)
  last_depth_ts_ms : ℕ

namespace DepthCalculator

/-- `DepthCalculator::new(cum_window_secs, decay)` (the unused impact-price
cache fields are omitted from the state). -/
def new (cum_window_secs decay : ℝ) : DepthCalculator :=
  { prev_bids := []
    prev_asks := []
    last_update_id := 0
    ofi_buffer := []
    cum_window_secs := cum_window_secs
    decay := decay
    trade_buffer := []
    last_depth_ts_ms := 0 }

/-- `DepthCalculator::add_trade`. -/
def add_trade (c : DepthCalculator) (timestamp_ms : ℕ) (price qty : ℝ)
    (is_buyer_maker : Bool) : DepthCalculator :=
  let buf := c.trade_buffer ++ [(timestamp_ms, price, qty, is_buyer_maker)]
  { c with trade_buffer := if 10000 < buf.length then buf.drop 1 else buf }

/-- The `drain` loop of `update_depth`: attribute buffered trades with
timestamp in `(last_depth_ts, trans_time]` to per-price consumed quantity
by side, drop older ones, keep later ones.  Returns
`(slice_bids, slice_asks, trades_to_keep)`. -/
noncomputable def sliceTrades (buffer : List (ℕ × ℝ × ℝ × Bool))
    (last_depth_ts trans_time_ms : ℕ) : Book × Book × List (ℕ × ℝ × ℝ × Bool) :=
  buffer.foldl (fun acc tr =>
    if tr.1 ≤ last_depth_ts then acc
    else if tr.1 ≤ trans_time_ms then
      let pk := priceKey tr.2.1
      if tr.2.2.2 then
        (hmInsert acc.1 pk ((hmGet acc.1 pk).getD 0 + tr.2.2.1), acc.2.1, acc.2.2)
      else
        (acc.1, hmInsert acc.2.1 pk ((hmGet acc.2.1 pk).getD 0 + tr.2.2.1), acc.2.2)
    else (acc.1, acc.2.1, acc.2.2 ++ [tr])) ([], [], [])

/-- `DepthCalculator::update_depth(update_id, trans_time_ms, bids, asks)`,
returning the new state paired with the `Option<(raw_ofi, cum_ofi,
mid_price)>` result. -/
noncomputable def update_depth (c : DepthCalculator) (update_id trans_time_ms : ℕ)
    (bids asks : List (ℝ × ℝ)) : DepthCalculator × Option (ℝ × ℝ × ℝ) :=
  if update_id ≤ c.last_update_id then (c, none)
  else
    let curr_bids := buildBook bids
    let curr_asks := buildBook asks
    let best_bid := bestBid bids
    let best_ask := bestAsk asks
    if best_bid ≤ 0 ∨ F64MAX ≤ best_ask then
      ({ c with
          last_update_id := update_id
          prev_bids := curr_bids
          prev_asks := curr_asks
          last_depth_ts_ms := trans_time_ms }, none)
    else
      let mid_price := (best_bid + best_ask) / 2
      if c.prev_bids = [] then
        ({ c with
            last_update_id := update_id
            prev_bids := curr_bids
            prev_asks := curr_asks
            last_depth_ts_ms := trans_time_ms }, none)
      else
        let sliced := sliceTrades c.trade_buffer c.last_depth_ts_ms trans_time_ms
        let b_flow := netLimitFlow c.prev_bids curr_bids sliced.2.1 mid_price
        let a_flow := netLimitFlow c.prev_asks curr_asks sliced.1 mid_price
        let raw_ofi := b_flow - a_flow
        let ts_sec := (trans_time_ms : ℝ) / 1000
        let buf := (c.ofi_buffer ++ [(ts_sec, raw_ofi)]).dropWhile
          (fun e => e.1 < ts_sec - c.cum_window_secs)
        let cum_ofi := buf.foldl (fun acc e => acc + e.2 * c.decay ^ ((ts_sec - e.1) * 10)) 0
        ({ c with
            last_update_id := update_id
            prev_bids := curr_bids
            prev_asks := curr_asks
            last_depth_ts_ms := trans_time_ms
            trade_buffer := sliced.2.2
            ofi_buffer := buf },
         some (raw_ofi, cum_ofi, mid_price))

end DepthCalculator

/-! ## Theorems -/

/-- **C8**: For every sample `vol`, `VolatilityStats::record(vol)` increments
the total sample count by one and increments exactly the bucket at index
`⌊vol / step⌋`, clamped to the last index `bucket_count - 1` when it would
exceed it.  (The length bound `≤ 2 ^ 64` reflects that a Rust `Vec` cannot
outgrow `usize`, and the count bound that the `u32` counter does not wrap.) -/
theorem VolatilityStats.record_increments_clamped_bucket (s : VolatilityStats) (vol : ℚ)
    (hne : s.buckets ≠ []) (hlen : s.buckets.length ≤ 2 ^ 64)
    (hvol : 0 ≤ vol) (hstep : 0 < s.step) (hcount : s.count + 1 < 2 ^ 32) :
    (s.record vol).count = s.count + 1 ∧
    ∀ j, (s.record vol).buckets.getD j 0 =
      s.buckets.getD j 0 +
        (if j = min (Nat.floor (vol / s.step)) (s.buckets.length - 1) then 1 else 0) := by
  have hlen0 : 0 < s.buckets.length := List.length_pos.mpr hne
  have hidx : (if s.buckets.length - 1 < f64AsUsize (vol / s.step)
      then s.buckets.length - 1 else f64AsUsize (vol / s.step))
      = min (Nat.floor (vol / s.step)) (s.buckets.length - 1) := by
    unfold f64AsUsize
    rcases lt_or_le (s.buckets.length - 1) (min (Nat.floor (vol / s.step)) (2 ^ 64 - 1)) with h | h
    · rw [if_pos h]
      omega
    · rw [if_neg (not_lt.mpr h)]
      omega
  constructor
  · simp only [VolatilityStats.record]
    omega
  · intro j
    simp only [VolatilityStats.record, hidx]
    rcases eq_or_ne j (min (Nat.floor (vol / s.step)) (s.buckets.length - 1)) with rfl | hj
    · rw [if_pos rfl]
      rw [List.getD_eq_getElem?_getD, List.getElem?_set, if_pos rfl,
        if_pos (by omega : min (Nat.floor (vol / s.step)) (s.buckets.length - 1)
          < s.buckets.length)]
      simp [List.getD_eq_getElem?_getD]
    · rw [if_neg hj]
      rw [List.getD_eq_getElem?_getD, List.getElem?_set, if_neg (fun h => hj h.symm)]
      simp [List.getD_eq_getElem?_getD]

/-- **C8 witness**: with `step = 0.01` and `bucket_count = 10`, recording a
sample of `0.50` increments bucket index 9 (clamped), not index 50. -/
theorem VolatilityStats.record_increments_clamped_bucket_witness :
    ((VolatilityStats.new (1/100) 10).record (1/2)).count = 1 ∧
    ((VolatilityStats.new (1/100) 10).record (1/2)).buckets.getD 9 0 = 1 := by
  have h := VolatilityStats.record_increments_clamped_bucket
    (VolatilityStats.new (1/100) 10) (1/2)
    (by simp [VolatilityStats.new]) (by norm_num [VolatilityStats.new])
    (by norm_num) (by norm_num [VolatilityStats.new]) (by norm_num [VolatilityStats.new])
  refine ⟨by simpa [VolatilityStats.new] using h.1, ?_⟩
  have h9 := h.2 9
  norm_num [VolatilityStats.new] at h9
  simpa using h9

/-- **C2**: whenever the buffer holds fewer than two points, or the
wall-clock age of the newest sample exceeds `stale_threshold_ms`,
`get_volatility` returns the stale fallback result
(`annualized = fallback_volatility`, `raw_vol = 0`, `dt_secs = 0`,
`duration_ms = 0`, `is_stale = true`). -/
theorem InstantVolatilityIndicator.get_volatility_stale
    (ind : InstantVolatilityIndicator) (now_ms : ℕ)
    (h : ind.prices.length < 2 ∨ ind.stale_threshold_ms < now_ms - ind.latestTs) :
    ind.get_volatility now_ms =
      { annualized := ind.fallback_volatility
        raw_vol := 0
        dt_secs := 0
        duration_ms := 0
        is_stale := true } := by
  unfold InstantVolatilityIndicator.get_volatility
  rcases h with h | h
  · rw [if_pos h]
    rfl
  · by_cases h2 : ind.prices.length < 2
    · rw [if_pos h2]
      rfl
    · rw [if_neg h2]
      simp only
      rw [if_pos h]
      rfl

/-- **C2 witness**: a freshly constructed indicator (empty buffer) returns
the stale fallback result. -/
theorem InstantVolatilityIndicator.get_volatility_stale_witness :
    (InstantVolatilityIndicator.new 2 5000 1 10000).prices.length < 2 ∧
    (InstantVolatilityIndicator.new 2 5000 1 10000).get_volatility 0 =
      { annualized := (InstantVolatilityIndicator.new 2 5000 1 10000).fallback_volatility
        raw_vol := 0
        dt_secs := 0
        duration_ms := 0
        is_stale := true } :=
  ⟨by simp [InstantVolatilityIndicator.new],
   InstantVolatilityIndicator.get_volatility_stale _ 0
     (Or.inl (by simp [InstantVolatilityIndicator.new]))⟩

/-- **C4**: after updates `(price = 100, t = 0 ms)` then
`(price = 101, t = 1000 ms)` with `window_size = 2`, and provided neither
the expiry rule nor the staleness rule fires, `get_volatility` returns
`raw_vol = |ln 101 - ln 100|`, `dt_secs = 1`, and
`annualized = raw_vol * sqrt(seconds_per_year)` with
`seconds_per_year = 31536000`. -/
theorem InstantVolatilityIndicator.get_volatility_two_trades
    (fb : ℝ) (stale expire now1 now2 now3 : ℕ)
    (h1 : now2 ≤ expire) (h2 : now3 - 1000 ≤ stale) :
    ((((InstantVolatilityIndicator.new 2 stale fb expire).update now1 100 0).update
        now2 101 1000).get_volatility now3).raw_vol = |Real.log 101 - Real.log 100| ∧
    ((((InstantVolatilityIndicator.new 2 stale fb expire).update now1 100 0).update
        now2 101 1000).get_volatility now3).dt_secs = 1 ∧
    ((((InstantVolatilityIndicator.new 2 stale fb expire).update now1 100 0).update
        now2 101 1000).get_volatility now3).annualized =
      |Real.log 101 - Real.log 100| * Real.sqrt 31536000 := by
  have hc : ¬ (expire < now2) := by omega
  have hs : ¬ (stale < now3 - 1000) := by omega
  have e1 : (InstantVolatilityIndicator.new 2 stale fb expire).update now1 100 0
      = { InstantVolatilityIndicator.new 2 stale fb expire with
          prices := [{ ln_price := Real.log 100, timestamp_ms := 0 }] } := by
    simp [InstantVolatilityIndicator.update, InstantVolatilityIndicator.new]
  have e2 : ({ InstantVolatilityIndicator.new 2 stale fb expire with
          prices := [{ ln_price := Real.log 100, timestamp_ms := 0 }]
          : InstantVolatilityIndicator }).update now2 101 1000
      = { InstantVolatilityIndicator.new 2 stale fb expire with
          prices := [{ ln_price := Real.log 100, timestamp_ms := 0 },
                     { ln_price := Real.log 101, timestamp_ms := 1000 }] } := by
    simp [InstantVolatilityIndicator.update, InstantVolatilityIndicator.new,
      List.dropWhile_cons, hc]
  rw [e1, e2]
  unfold InstantVolatilityIndicator.get_volatility
  simp only [InstantVolatilityIndicator.new, InstantVolatilityIndicator.latestTs]
  norm_num [hs]
  simp [Real.sqrt_sq_eq_abs]

/-- **C4 witness**: the scenario at concrete wall-clock values. -/
theorem InstantVolatilityIndicator.get_volatility_two_trades_witness :
    ((((InstantVolatilityIndicator.new 2 5000 1 10000).update 0 100 0).update
        1000 101 1000).get_volatility 1000).dt_secs = 1 ∧
    ((((InstantVolatilityIndicator.new 2 5000 1 10000).update 0 100 0).update
        1000 101 1000).get_volatility 1000).annualized =
      |Real.log 101 - Real.log 100| * Real.sqrt 31536000 :=
  (InstantVolatilityIndicator.get_volatility_two_trades 1 5000 10000 0 1000 1000
    (by norm_num) (by norm_num)).2

/-- **C7**: one `update` call on a buffer within its bound keeps the length
at most `window_size` and produces a suffix of the old buffer with the new
point appended (all evictions are strictly FIFO: only oldest entries are
removed, whether by the expiry rule or by capacity); consequently every
sequence of `update` calls from a fresh indicator keeps the buffer at most
`window_size` entries. -/
theorem InstantVolatilityIndicator.update_bounded_and_fifo :
    (∀ (ind : InstantVolatilityIndicator) (now_ms : ℕ) (price : ℝ) (trade_time_ms : ℕ),
      ind.prices.length ≤ ind.window_size →
        ((ind.update now_ms price trade_time_ms).prices.length ≤ ind.window_size ∧
         (ind.update now_ms price trade_time_ms).prices <:+
           ind.prices ++ [{ ln_price := Real.log price, timestamp_ms := trade_time_ms }])) ∧
    (∀ (ws st : ℕ) (fb : ℝ) (ex : ℕ) (calls : List (ℕ × ℝ × ℕ)),
      (calls.foldl (fun m c => m.update c.1 c.2.1 c.2.2)
        (InstantVolatilityIndicator.new ws st fb ex)).prices.length ≤ ws) := by
  have hstep : ∀ (ind : InstantVolatilityIndicator) (now_ms : ℕ) (price : ℝ) (trade_time_ms : ℕ),
      ind.prices.length ≤ ind.window_size →
        ((ind.update now_ms price trade_time_ms).prices.length ≤ ind.window_size ∧
         (ind.update now_ms price trade_time_ms).prices <:+
           ind.prices ++ [{ ln_price := Real.log price, timestamp_ms := trade_time_ms }]) := by
    intro ind now_ms price trade_time_ms hlen
    have hdw : (ind.prices.dropWhile
        (fun p => decide (ind.expire_threshold_ms < now_ms - p.timestamp_ms))) <:+ ind.prices :=
      List.dropWhile_suffix _
    have hdwlen : (ind.prices.dropWhile
        (fun p => decide (ind.expire_threshold_ms < now_ms - p.timestamp_ms))).length
        ≤ ind.prices.length := hdw.length_le
    have happ : (ind.prices.dropWhile
          (fun p => decide (ind.expire_threshold_ms < now_ms - p.timestamp_ms)))
          ++ [{ ln_price := Real.log price, timestamp_ms := trade_time_ms }] <:+
        ind.prices ++ [{ ln_price := Real.log price, timestamp_ms := trade_time_ms }] := by
      obtain ⟨t, ht⟩ := hdw
      exact ⟨t, by rw [← List.append_assoc, ht]⟩
    constructor
    · simp only [InstantVolatilityIndicator.update]
      split
      · simp only [List.length_drop, List.length_append, List.length_singleton]
        omega
      · next h =>
        simp only [List.length_append, List.length_singleton] at h ⊢
        omega
    · simp only [InstantVolatilityIndicator.update]
      split
      · exact (List.drop_suffix _ _).trans happ
      · exact happ
  refine ⟨hstep, ?_⟩
  have hws : ∀ (ind : InstantVolatilityIndicator) (now_ms : ℕ) (price : ℝ) (trade_time_ms : ℕ),
      (ind.update now_ms price trade_time_ms).window_size = ind.window_size := by
    intros; simp [InstantVolatilityIndicator.update]
  have main : ∀ (calls : List (ℕ × ℝ × ℕ)) (m : InstantVolatilityIndicator),
      m.prices.length ≤ m.window_size →
        ((calls.foldl (fun m c => m.update c.1 c.2.1 c.2.2) m).prices.length
            ≤ m.window_size ∧
         (calls.foldl (fun m c => m.update c.1 c.2.1 c.2.2) m).window_size
            = m.window_size) := by
    intro calls
    induction calls with
    | nil => intro m hm; exact ⟨hm, rfl⟩
    | cons c cs ih =>
        intro m hm
        have h1 := (hstep m c.1 c.2.1 c.2.2 hm).1
        have h2 := hws m c.1 c.2.1 c.2.2
        have := ih (m.update c.1 c.2.1 c.2.2) (by rw [h2]; exact h1)
        simpa [List.foldl_cons, h2] using this
  intro ws st fb ex calls
  have := (main calls (InstantVolatilityIndicator.new ws st fb ex)
    (by simp [InstantVolatilityIndicator.new])).1
  simpa [InstantVolatilityIndicator.new] using this

/-- **C7 witness**: the single-step bound at a concrete state. -/
theorem InstantVolatilityIndicator.update_bounded_and_fifo_witness :
    ((InstantVolatilityIndicator.new 2 5000 1 10000).update 0 1 0).prices.length
      ≤ (InstantVolatilityIndicator.new 2 5000 1 10000).window_size :=
  (InstantVolatilityIndicator.update_bounded_and_fifo.1
    (InstantVolatilityIndicator.new 2 5000 1 10000) 0 1 0
    (by simp [InstantVolatilityIndicator.new])).1

/-- **C5**: while a window is open (`window_start_ms ≠ 0`): a trade inside
the window (`ts - window_start < window_ms`, `u64` subtraction) is
accumulated and `None` returned; otherwise the closed window is flushed
(`vwap = sum_pq / sum_q`, timestamp = last trade time of the window;
skipped with `None` when `sum_q ≤ 0`), the point is appended to the series
evicting the oldest entry beyond `max_series_len`, a new window starts with
the triggering trade, and the point is returned. -/
theorem VwapCalculator.add_trade_open_window (c : VwapCalculator) (price qty : ℚ)
    (ts : ℕ) (hopen : c.window_start_ms ≠ 0) :
    (u64Sub ts c.window_start_ms < c.window_ms →
      c.add_trade price qty ts =
        ({ c with
            sum_pq := c.sum_pq + price * qty
            sum_q := c.sum_q + qty
            last_ts_ms := ts }, none)) ∧
    (¬ u64Sub ts c.window_start_ms < c.window_ms →
      (c.sum_q ≤ 0 →
        c.add_trade price qty ts =
          ({ c with
              window_start_ms := ts
              sum_pq := price * qty
              sum_q := qty
              last_ts_ms := ts }, none)) ∧
      (0 < c.sum_q →
        c.add_trade price qty ts =
          ({ c with
              window_start_ms := ts
              sum_pq := price * qty
              sum_q := qty
              last_ts_ms := ts
              vwap_series :=
                let series := c.vwap_series ++
                  [{ price := c.sum_pq / c.sum_q, timestamp_ms := c.last_ts_ms }]
                if c.max_series_len < series.length then series.drop 1 else series },
           some { price := c.sum_pq / c.sum_q, timestamp_ms := c.last_ts_ms }))) := by
  refine ⟨fun h => ?_, fun h => ⟨fun hq => ?_, fun hq => ?_⟩⟩
  · rw [VwapCalculator.add_trade, if_neg hopen, if_pos h]
  · rw [VwapCalculator.add_trade, if_neg hopen, if_neg h]
    simp [VwapCalculator.flush, hq]
  · rw [VwapCalculator.add_trade, if_neg hopen, if_neg h]
    rw [VwapCalculator.flush, if_neg (not_le.mpr hq)]

/-- **C5 witness**: a concrete trade past the end of an open window flushes
`vwap = 200/2 = 100` stamped with the last in-window trade time `60`. -/
theorem VwapCalculator.add_trade_open_window_witness :
    (VwapCalculator.add_trade
      { window_ms := 100, window_start_ms := 50, sum_pq := 200, sum_q := 2,
        last_ts_ms := 60, vwap_series := [], max_series_len := 3 }
      3 1 200).2 = some { price := 100, timestamp_ms := 60 } := by
  have h := ((VwapCalculator.add_trade_open_window
    { window_ms := 100, window_start_ms := 50, sum_pq := 200, sum_q := 2,
      last_ts_ms := 60, vwap_series := [], max_series_len := 3 }
    3 1 200 (by norm_num)).2 (by norm_num [u64Sub])).2 (by norm_num)
  rw [h]
  norm_num

/-- **C6 counterexample**: two in-window points sharing one timestamp meet
the `min_points = 2` requirement, yet `fit` returns `none` (the least-squares
denominator degenerates to `0 < 1e-10`), refuting "whenever at least
`min_points` points fall in the window, it returns a fit". -/
theorem PriceFitter.fit_counterexample :
    (PriceFitter.new 10 2 0).min_points ≤
      ((PriceFitter.new 10 2 0).fitPoints
        [{ price := 100, timestamp_ms := 1000 }, { price := 101, timestamp_ms := 1000 }]
        1000).length ∧
    (PriceFitter.new 10 2 0).fit
      [{ price := 100, timestamp_ms := 1000 }, { price := 101, timestamp_ms := 1000 }]
      1000 = none := by
  constructor
  · norm_num [PriceFitter.new, PriceFitter.fitPoints]
  · norm_num [PriceFitter.new, PriceFitter.fit, PriceFitter.fitPoints, PriceFitter.tNorm,
      PriceFitter.fitDenom]

/-- **C6 (amended)**: `fit` returns no result when fewer than `min_points`
points fall in the window; when at least `min_points` points fall in the
window *and* the least-squares denominator is at least `1e-10` in absolute
value, it returns a fit whose `is_valid` equals `r_squared ≥ min_r2` and
whose `current_price` is `intercept + slope * t` at the last zero-normalized
in-window time. -/
theorem PriceFitter.fit_spec (pf : PriceFitter) (series : List VwapPoint)
    (current_ts_ms : ℕ) :
    ((pf.fitPoints series current_ts_ms).length < pf.min_points →
      pf.fit series current_ts_ms = none) ∧
    (pf.min_points ≤ (pf.fitPoints series current_ts_ms).length →
      1 / 10 ^ 10 ≤ |PriceFitter.fitDenom (pf.fitPoints series current_ts_ms)| →
      ∃ r, pf.fit series current_ts_ms = some r ∧
        (r.is_valid = true ↔ pf.min_r2 ≤ r.r_squared) ∧
        r.current_price = r.intercept + r.slope *
          ((PriceFitter.tNorm (pf.fitPoints series current_ts_ms)).getLast?.getD 0)) := by
  constructor
  · intro h
    rw [PriceFitter.fit, if_pos h]
  · intro h1 h2
    rw [PriceFitter.fit, if_neg (not_lt.mpr h1), if_neg (not_lt.mpr h2)]
    exact ⟨_, rfl, by simp, rfl⟩

/-- **C6 witness**: two distinct-timestamp points give a fit with
`slope = 1`, `r_squared = 1`, hence `is_valid` and a defined
`current_price`. -/
theorem PriceFitter.fit_spec_witness :
    ((PriceFitter.new 10 2 0).fit
      [{ price := 100, timestamp_ms := 0 }, { price := 101, timestamp_ms := 1000 }]
      1000).isSome = true := by
  obtain ⟨r, hr, -, -⟩ := (PriceFitter.fit_spec (PriceFitter.new 10 2 0)
    [{ price := 100, timestamp_ms := 0 }, { price := 101, timestamp_ms := 1000 }] 1000).2
    (by norm_num [PriceFitter.new, PriceFitter.fitPoints])
    (by norm_num [PriceFitter.new, PriceFitter.fitPoints, PriceFitter.tNorm,
      PriceFitter.fitDenom])
  rw [hr]
  rfl

/-- **C10**: an `update` call while Holding with `fit_5s = None` leaves the
entire machine state unchanged — no exit to Cooldown can occur on that call,
whatever the price and elapsed time, because every Holding exit check is
gated on a supplied fit. -/
theorem TrendStateMachine.update_holding_no_fit (m : TrendStateMachine)
    (ts cum_ofi price : ℚ) (h : m.state = StrategyState.Holding) :
    m.update ts none cum_ofi price = m := by
  unfold TrendStateMachine.update
  rw [h]

/-- **C10 witness**: a Holding machine whose price has retraced far beyond
any fallback threshold, past the protection window, is still untouched by a
fit-less update. -/
theorem TrendStateMachine.update_holding_no_fit_witness :
    TrendStateMachine.update
      { state := StrategyState.Holding, direction := TrendDirection.Long,
        entry_slope := 1, entry_intercept := 100, entry_ts_sec := 0,
        cooldown_start_ts := 0, cooldown_secs := 30, slope_threshold := 1,
        ofi_confirm_threshold := 1, slope_threshold_ratio := 1/2,
        min_price_fallback := 1, max_price_fallback := 5,
        entry_protection_secs := 3, slope_history := [],
        slope_weak_threshold := 0 }
      10 none 0 50 =
      { state := StrategyState.Holding, direction := TrendDirection.Long,
        entry_slope := 1, entry_intercept := 100, entry_ts_sec := 0,
        cooldown_start_ts := 0, cooldown_secs := 30, slope_threshold := 1,
        ofi_confirm_threshold := 1, slope_threshold_ratio := 1/2,
        min_price_fallback := 1, max_price_fallback := 5,
        entry_protection_secs := 3, slope_history := [],
        slope_weak_threshold := 0 } :=
  TrendStateMachine.update_holding_no_fit _ 10 0 50 rfl

/-- **C3**: from Scanning, an update with a valid fit, `slope >
slope_threshold` and `cum_ofi > ofi_confirm_threshold` enters Holding/Long,
recording `entry_slope = fit.slope`, `entry_price = fit.current_price` and
the entry timestamp and clearing the slope history — exactly once: a second
update with the same inputs while Holding (inside the entry-protection
window, `0 < entry_protection_secs`) stays Holding/Long with all entry
state intact, only appending the slope to the history. -/
theorem TrendStateMachine.scanning_enters_long_once (m : TrendStateMachine)
    (fit : FitResult) (ts cum_ofi price : ℚ)
    (hscan : m.state = StrategyState.Scanning)
    (hvalid : fit.is_valid = true)
    (hslope : m.slope_threshold < fit.slope)
    (hofi : m.ofi_confirm_threshold < cum_ofi)
    (hprot : 0 < m.entry_protection_secs) :
    ((m.update ts (some fit) cum_ofi price).state = StrategyState.Holding ∧
     (m.update ts (some fit) cum_ofi price).direction = TrendDirection.Long ∧
     (m.update ts (some fit) cum_ofi price).entry_slope = fit.slope ∧
     (m.update ts (some fit) cum_ofi price).entry_intercept = fit.current_price ∧
     (m.update ts (some fit) cum_ofi price).entry_ts_sec = ts ∧
     (m.update ts (some fit) cum_ofi price).slope_history = []) ∧
    (((m.update ts (some fit) cum_ofi price).update ts (some fit) cum_ofi price).state
        = StrategyState.Holding ∧
     ((m.update ts (some fit) cum_ofi price).update ts (some fit) cum_ofi price).direction
        = TrendDirection.Long ∧
     ((m.update ts (some fit) cum_ofi price).update ts (some fit) cum_ofi price).entry_slope
        = fit.slope ∧
     ((m.update ts (some fit) cum_ofi price).update ts (some fit) cum_ofi price).entry_intercept
        = fit.current_price ∧
     ((m.update ts (some fit) cum_ofi price).update ts (some fit) cum_ofi price).entry_ts_sec
        = ts ∧
     ((m.update ts (some fit) cum_ofi price).update ts (some fit) cum_ofi price).slope_history
        = [fit.slope]) := by
  have e1 : m.update ts (some fit) cum_ofi price
      = m.enter_position TrendDirection.Long fit ts := by
    unfold TrendStateMachine.update
    rw [hscan]
    simp only [hvalid, if_pos trivial, if_true]
    rw [if_pos ⟨hslope, hofi⟩]
  have e2 : (m.enter_position TrendDirection.Long fit ts).update ts (some fit) cum_ofi price
      = { m.enter_position TrendDirection.Long fit ts with slope_history := [fit.slope] } := by
    unfold TrendStateMachine.update
    have hst : (m.enter_position TrendDirection.Long fit ts).state = StrategyState.Holding := rfl
    rw [hst]
    norm_num [TrendStateMachine.enter_position, not_le.mpr hprot, sub_self]
  rw [e1, e2]
  simp [TrendStateMachine.enter_position]

/-- **C3 witness**: a concrete Scanning machine enters Holding/Long once and
a second identical update leaves the entry price untouched. -/
theorem TrendStateMachine.scanning_enters_long_once_witness :
    ((TrendStateMachine.new
        { slope_threshold := 1, ofi_confirm_threshold := 1, cooldown_secs := 30,
          slope_threshold_ratio := 1/2, min_price_fallback := 1,
          max_price_fallback := 5, entry_protection_secs := 3,
          slope_weak_threshold := 0 }).update 10
      (some { slope := 2, intercept := 100, r_squared := 1, is_valid := true,
              current_price := 100 }) 2 100).direction = TrendDirection.Long ∧
    (((TrendStateMachine.new
        { slope_threshold := 1, ofi_confirm_threshold := 1, cooldown_secs := 30,
          slope_threshold_ratio := 1/2, min_price_fallback := 1,
          max_price_fallback := 5, entry_protection_secs := 3,
          slope_weak_threshold := 0 }).update 10
      (some { slope := 2, intercept := 100, r_squared := 1, is_valid := true,
              current_price := 100 }) 2 100).update 10
      (some { slope := 2, intercept := 100, r_squared := 1, is_valid := true,
              current_price := 100 }) 2 100).entry_intercept = 100 := by
  have h := TrendStateMachine.scanning_enters_long_once
    (TrendStateMachine.new
      { slope_threshold := 1, ofi_confirm_threshold := 1, cooldown_secs := 30,
        slope_threshold_ratio := 1/2, min_price_fallback := 1,
        max_price_fallback := 5, entry_protection_secs := 3,
        slope_weak_threshold := 0 })
    { slope := 2, intercept := 100, r_squared := 1, is_valid := true,
      current_price := 100 } 10 2 100
    rfl rfl (by norm_num [TrendStateMachine.new]) (by norm_num [TrendStateMachine.new])
    (by norm_num [TrendStateMachine.new])
  exact ⟨h.1.2.1, h.2.2.2.2.1⟩

/-- **C9**: starting from the initial machine (Scanning, Neutral), every
sequence of `update` calls preserves the invariant that the direction is
Long or Short exactly when the state is Holding, and Neutral exactly when
the state is Scanning or Cooldown. -/
theorem TrendStateMachine.direction_state_invariant (cfg : TrendConfig)
    (calls : List (ℚ × Option FitResult × ℚ × ℚ)) :
    (((calls.foldl (fun m c => m.update c.1 c.2.1 c.2.2.1 c.2.2.2)
          (TrendStateMachine.new cfg)).direction = TrendDirection.Long ∨
      (calls.foldl (fun m c => m.update c.1 c.2.1 c.2.2.1 c.2.2.2)
          (TrendStateMachine.new cfg)).direction = TrendDirection.Short) ↔
      (calls.foldl (fun m c => m.update c.1 c.2.1 c.2.2.1 c.2.2.2)
          (TrendStateMachine.new cfg)).state = StrategyState.Holding) ∧
    ((calls.foldl (fun m c => m.update c.1 c.2.1 c.2.2.1 c.2.2.2)
          (TrendStateMachine.new cfg)).direction = TrendDirection.Neutral ↔
      ((calls.foldl (fun m c => m.update c.1 c.2.1 c.2.2.1 c.2.2.2)
          (TrendStateMachine.new cfg)).state = StrategyState.Scanning ∨
       (calls.foldl (fun m c => m.update c.1 c.2.1 c.2.2.1 c.2.2.2)
          (TrendStateMachine.new cfg)).state = StrategyState.Cooldown)) := by
  have hstep : ∀ (m : TrendStateMachine) (ts : ℚ) (f : Option FitResult) (ofi price : ℚ),
      (m.direction = TrendDirection.Neutral ↔ m.state ≠ StrategyState.Holding) →
      ((m.update ts f ofi price).direction = TrendDirection.Neutral ↔
        (m.update ts f ofi price).state ≠ StrategyState.Holding) := by
    intro m ts f ofi price hm
    unfold TrendStateMachine.update
    cases hs : m.state
    · have hd : m.direction = TrendDirection.Neutral := hm.mpr (by rw [hs]; simp)
      split
      · split <;> simp [hd, hs]
      · simp_all
      · simp_all
    · have hd : m.direction = TrendDirection.Neutral := hm.mpr (by rw [hs]; simp)
      split
      · simp_all
      · split
        · simp [hd, hs]
        · split
          · split
            · simp [TrendStateMachine.enter_position]
            · split
              · simp [TrendStateMachine.enter_position]
              · simp [hd, hs]
          · simp [hd, hs]
      · simp_all
    · have hd : m.direction ≠ TrendDirection.Neutral := fun h => (hm.mp h) hs
      split
      · simp_all
      · simp_all
      · split
        · simp [hd, hs]
        · dsimp only
          split
          all_goals try split
          all_goals try split
          all_goals try split
          all_goals try split
          all_goals simp [TrendStateMachine.exit_position, hd, hs]
  have post : ∀ (m : TrendStateMachine),
      (m.direction = TrendDirection.Neutral ↔ m.state ≠ StrategyState.Holding) →
      (((m.direction = TrendDirection.Long ∨ m.direction = TrendDirection.Short) ↔
          m.state = StrategyState.Holding) ∧
       (m.direction = TrendDirection.Neutral ↔
          (m.state = StrategyState.Scanning ∨ m.state = StrategyState.Cooldown))) := by
    intro m hm
    cases hd : m.direction <;> cases hs : m.state <;> simp_all
  have inv : ∀ (cs : List (ℚ × Option FitResult × ℚ × ℚ)) (m : TrendStateMachine),
      (m.direction = TrendDirection.Neutral ↔ m.state ≠ StrategyState.Holding) →
      ((cs.foldl (fun m c => m.update c.1 c.2.1 c.2.2.1 c.2.2.2) m).direction
          = TrendDirection.Neutral ↔
        (cs.foldl (fun m c => m.update c.1 c.2.1 c.2.2.1 c.2.2.2) m).state
          ≠ StrategyState.Holding) := by
    intro cs
    induction cs with
    | nil => intro m hm; exact hm
    | cons c rest ih =>
        intro m hm
        exact ih _ (hstep m c.1 c.2.1 c.2.2.1 c.2.2.2 hm)
  exact post _ (inv calls (TrendStateMachine.new cfg) (by simp [TrendStateMachine.new]))

/-- **C1 counterexample**: a *crossed* (but not empty) book — best bid `10`
above best ask `5` — is not rejected: after a warm-up snapshot, the crossed
update returns `Some`, refuting the claim that `update_depth` returns `None`
when the book is crossed. -/
theorem DepthCalculator.update_depth_crossed_counterexample :
    bestAsk [((5 : ℝ), (1 : ℝ))] < bestBid [((10 : ℝ), (1 : ℝ))] ∧
    (((DepthCalculator.new 10 (9/10)).update_depth 1 1000
        [((10 : ℝ), (1 : ℝ))] [((11 : ℝ), (1 : ℝ))]).1.update_depth 2 2000
        [((10 : ℝ), (1 : ℝ))] [((5 : ℝ), (1 : ℝ))]).2 ≠ none := by
  have hmax5 : ((5 : ℝ)) < F64MAX := by norm_num [F64MAX]
  have hmax11 : ((11 : ℝ)) < F64MAX := by norm_num [F64MAX]
  have hask5 : bestAsk [((5 : ℝ), (1 : ℝ))] = 5 := by
    simp [bestAsk, min_eq_right hmax5.le]
  have hask11 : bestAsk [((11 : ℝ), (1 : ℝ))] = 11 := by
    simp [bestAsk, min_eq_right hmax11.le]
  have hbid10 : bestBid [((10 : ℝ), (1 : ℝ))] = 10 := by
    simp [bestBid]
  refine ⟨by rw [hask5, hbid10]; norm_num, ?_⟩
  have e1 : ((DepthCalculator.new 10 (9/10)).update_depth 1 1000
      [((10 : ℝ), (1 : ℝ))] [((11 : ℝ), (1 : ℝ))]).1
      = { DepthCalculator.new 10 (9/10) with
          last_update_id := 1
          prev_bids := buildBook [((10 : ℝ), (1 : ℝ))]
          prev_asks := buildBook [((11 : ℝ), (1 : ℝ))]
          last_depth_ts_ms := 1000 } := by
    unfold DepthCalculator.update_depth
    rw [if_neg (by norm_num [DepthCalculator.new])]
    dsimp only
    rw [if_neg (by rw [hbid10, hask11]; push_neg; exact ⟨by norm_num, by linarith⟩)]
    rw [if_pos (show (DepthCalculator.new 10 (9/10)).prev_bids = [] from rfl)]
  rw [e1]
  unfold DepthCalculator.update_depth
  rw [if_neg (by norm_num)]
  dsimp only
  rw [if_neg (by rw [hbid10, hask5]; push_neg; exact ⟨by norm_num, by linarith⟩)]
  rw [if_neg (by simp [buildBook, hmInsert])]
  simp

/-- **C1 (amended)**: `update_depth` returns `None` iff the update is
duplicate/out-of-order (`update_id ≤` last accepted), or the book fails the
emptiness test (`best_bid ≤ 0` or `best_ask ≥ f64::MAX`, i.e. an empty or
non-positive side — a crossed book is *not* rejected), or no previous book
is stored (warm-up).  A duplicate leaves the state untouched; every accepted
update — including the empty-book and warm-up cases — replaces the stored
book sides and the last depth timestamp with the new snapshot.  In the
remaining case the result is `Some((raw_ofi, cum_ofi, mid_price))`. -/
theorem DepthCalculator.update_depth_spec (c : DepthCalculator)
    (update_id trans_time_ms : ℕ) (bids asks : List (ℝ × ℝ)) :
    ((c.update_depth update_id trans_time_ms bids asks).2 = none ↔
      (update_id ≤ c.last_update_id ∨ bestBid bids ≤ 0 ∨ F64MAX ≤ bestAsk asks ∨
        c.prev_bids = [])) ∧
    (update_id ≤ c.last_update_id →
      (c.update_depth update_id trans_time_ms bids asks).1 = c) ∧
    (c.last_update_id < update_id →
      ((c.update_depth update_id trans_time_ms bids asks).1.prev_bids = buildBook bids ∧
       (c.update_depth update_id trans_time_ms bids asks).1.prev_asks = buildBook asks ∧
       (c.update_depth update_id trans_time_ms bids asks).1.last_depth_ts_ms
          = trans_time_ms)) := by
  unfold DepthCalculator.update_depth
  by_cases h1 : update_id ≤ c.last_update_id
  · rw [if_pos h1]
    exact ⟨by simp [h1], fun _ => rfl, fun hlt => absurd h1 (not_le.mpr hlt)⟩
  · rw [if_neg h1]
    dsimp only
    by_cases h2 : bestBid bids ≤ 0 ∨ F64MAX ≤ bestAsk asks
    · rw [if_pos h2]
      refine ⟨by simp [h2.imp id Or.inl], fun hle => absurd hle h1,
        fun _ => ⟨rfl, rfl, rfl⟩⟩
    · rw [if_neg h2]
      by_cases h3 : c.prev_bids = []
      · rw [if_pos h3]
        exact ⟨by simp [h3], fun hle => absurd hle h1, fun _ => ⟨rfl, rfl, rfl⟩⟩
      · rw [if_neg h3]
        refine ⟨?_, fun hle => absurd hle h1, fun _ => ⟨rfl, rfl, rfl⟩⟩
        have hnot : ¬ (update_id ≤ c.last_update_id ∨ bestBid bids ≤ 0 ∨
            F64MAX ≤ bestAsk asks ∨ c.prev_bids = []) :=
          not_or.mpr ⟨h1, not_or.mpr ⟨(not_or.mp h2).1,
            not_or.mpr ⟨(not_or.mp h2).2, h3⟩⟩⟩
        simp [hnot]

/-- **C1 witness**: an accepted warm-up call stores the new snapshot's
timestamp. -/
theorem DepthCalculator.update_depth_spec_witness :
    ((DepthCalculator.new 10 (9/10)).update_depth 1 1000
      [((10 : ℝ), (1 : ℝ))] [((11 : ℝ), (1 : ℝ))]).1.last_depth_ts_ms = 1000 :=
  ((DepthCalculator.update_depth_spec (DepthCalculator.new 10 (9/10)) 1 1000
    [((10 : ℝ), (1 : ℝ))] [((11 : ℝ), (1 : ℝ))]).2.2
    (by norm_num [DepthCalculator.new])).2.2
